import Mathlib

/-!
Verification of the 2D point-mass flight-dynamics simulator core.

Shallow embedding of the C++ sources over the real numbers (doubles are
idealized as elements of `ℝ`; rationals `ℚ` are used for the CSV numeral
parser, where the source manipulates exact decimal text).  Each definition
mirrors one function of the repository:

* `Vec2`, its arithmetic — `FlightDynamics/src/vec2.hpp`
* `integrateRK4` — `FlightDynamics/src/integrator.cpp`
* `PIDController` — `src/pid.cpp` / `src/pid.hpp`
* atmosphere functions — `src/atmosphere.cpp` with the constants of
  `FlightDynamics/src/atmosphere.hpp`
* `AeroDataTable.interpolate` and `AeroDataTable.loadFromCSV` —
  `src/aerodynamics/aero_data.hpp`
* `calcCL`/`calcCD`/`calcLift`/… — `src/aerodynamics/aero.cpp`
* `AircraftLoader.loadFromJSON` — `src/aircraft/aircraft_loader.hpp`
* `updatePhysics` — `src/simulation/physics_update.hpp`
-/

/-- 2D vector of doubles, from `FlightDynamics/src/vec2.hpp` (`struct Vec2`). -/
structure Vec2 where
  x : ℝ
  y : ℝ

namespace Vec2

/-- `Vec2::operator+`. -/
noncomputable instance : Add Vec2 := ⟨fun a b => ⟨a.x + b.x, a.y + b.y⟩⟩

/-- `Vec2::operator-`. -/
noncomputable instance : Sub Vec2 := ⟨fun a b => ⟨a.x - b.x, a.y - b.y⟩⟩

/-- `Vec2::operator*` (scalar multiplication on the right). -/
noncomputable instance : HMul Vec2 ℝ Vec2 := ⟨fun v s => ⟨v.x * s, v.y * s⟩⟩

/-- `Vec2::operator/` (scalar division). -/
noncomputable instance : HDiv Vec2 ℝ Vec2 := ⟨fun v s => ⟨v.x / s, v.y / s⟩⟩

/-- `Vec2::dot`. -/
def dot (a b : Vec2) : ℝ := a.x * b.x + a.y * b.y

/-- `Vec2::magnitude`: `sqrt(x*x + y*y)`. -/
noncomputable def magnitude (v : Vec2) : ℝ := Real.sqrt (v.x * v.x + v.y * v.y)

/-- `Vec2::magnitudeSquared`. -/
def magnitudeSquared (v : Vec2) : ℝ := v.x * v.x + v.y * v.y

/-- `Vec2::normalized`: returns the zero vector when the magnitude is below
`1e-9`, otherwise divides each component by the magnitude. -/
noncomputable def normalized (v : Vec2) : Vec2 :=
  if v.magnitude < 1e-9 then ⟨0, 0⟩ else ⟨v.x / v.magnitude, v.y / v.magnitude⟩

/-- `Vec2::rotated`: standard counter-clockwise 2D rotation by `angle` radians. -/
noncomputable def rotated (v : Vec2) (angle : ℝ) : Vec2 :=
  ⟨v.x * Real.cos angle - v.y * Real.sin angle,
   v.x * Real.sin angle + v.y * Real.cos angle⟩

@[simp] theorem add_def (a b : Vec2) : a + b = ⟨a.x + b.x, a.y + b.y⟩ := rfl

@[simp] theorem mul_def (v : Vec2) (s : ℝ) : v * s = ⟨v.x * s, v.y * s⟩ := rfl

@[simp] theorem div_def (v : Vec2) (s : ℝ) : v / s = ⟨v.x / s, v.y / s⟩ := rfl

end Vec2

/-- `integrateRK4` from `FlightDynamics/src/integrator.cpp`.  The C++ version
mutates `position` and `velocity` in place; here the updated pair
`(position, velocity)` is returned.  The four stages are spelled out exactly
as in the source; the acceleration is the same frozen vector at every stage. -/
noncomputable def integrateRK4 (position velocity acceleration : Vec2) (dt : ℝ) :
    Vec2 × Vec2 :=
  -- k1: derivatives at current state
  let k1_vel := acceleration
  let k1_pos := velocity
  -- k2: derivatives at midpoint using k1
  let vel_mid1 := velocity + k1_vel * (dt * 0.5)
  let k2_vel := acceleration
  let k2_pos := vel_mid1
  -- k3: derivatives at midpoint using k2
  let vel_mid2 := velocity + k2_vel * (dt * 0.5)
  let k3_vel := acceleration
  let k3_pos := vel_mid2
  -- k4: derivatives at endpoint using k3
  let vel_end := velocity + k3_vel * dt
  let k4_vel := acceleration
  let k4_pos := vel_end
  let newVelocity := velocity + (k1_vel + k2_vel * (2.0 : ℝ) + k3_vel * (2.0 : ℝ) + k4_vel) * (dt / 6.0)
  let newPosition := position + (k1_pos + k2_pos * (2.0 : ℝ) + k3_pos * (2.0 : ℝ) + k4_pos) * (dt / 6.0)
  (newPosition, newVelocity)

/-- C1: with the acceleration frozen for the whole step, `integrateRK4`
collapses to the exact closed-form kinematic update
`newVelocity = velocity + acceleration·dt` and
`newPosition = position + velocity·dt + 0.5·acceleration·dt²`; in particular
from rest with constant acceleration `(10, 0)` and `dt = 1` it returns
velocity `(10, 0)` and position `(5, 0)`. -/
theorem integrateRK4_closed_form :
    (∀ (p v a : Vec2) (dt : ℝ),
      (integrateRK4 p v a dt).2 = v + a * dt ∧
      (integrateRK4 p v a dt).1 = p + v * dt + a * (0.5 * dt ^ 2)) ∧
    integrateRK4 ⟨0, 0⟩ ⟨0, 0⟩ ⟨10, 0⟩ 1 = (⟨5, 0⟩, ⟨10, 0⟩) := by
  constructor
  · intro p v a dt
    constructor
    · simp only [integrateRK4, Vec2.add_def, Vec2.mul_def, Vec2.mk.injEq]
      constructor <;> ring
    · simp only [integrateRK4, Vec2.add_def, Vec2.mul_def, Vec2.mk.injEq]
      constructor <;> ring
  · simp only [integrateRK4, Vec2.add_def, Vec2.mul_def, Prod.mk.injEq, Vec2.mk.injEq]
    norm_num

/-- `std::clamp(v, lo, hi)` as used in `src/pid.cpp`:
`v < lo ? lo : (hi < v ? hi : v)`. -/
noncomputable def stdClamp (v lo hi : ℝ) : ℝ :=
  if v < lo then lo else if hi < v then hi else v

/-- The state of a `PIDController` (`src/pid.hpp`): gains, output limits,
accumulated integral, previous error, first-update flag, and the last
P/I/D term values kept for introspection. -/
structure PIDController where
  Kp : ℝ
  Ki : ℝ
  Kd : ℝ
  output_min : ℝ
  output_max : ℝ
  integral : ℝ
  previous_error : ℝ
  first_update : Bool
  p_term : ℝ
  i_term : ℝ
  d_term : ℝ

namespace PIDController

/-- The constructor `PIDController::PIDController` (`src/pid.cpp` lines
15–22): stores gains and limits, zeroes integral, previous error and the
term values, and starts in the first-update state. -/
def make (Kp Ki Kd output_min output_max : ℝ) : PIDController :=
  ⟨Kp, Ki, Kd, output_min, output_max, 0, 0, true, 0, 0, 0⟩

/-- `PIDController::update` (`src/pid.cpp` lines 24–66).  The C++ method
mutates the controller and returns the output; here the pair
`(output, updated controller)` is returned.  Steps follow the source:
error, integral accumulation, anti-windup clamp, derivative (skipped on the
first update or when `dt ≤ 1e-10`), term computation, output clamp, and
storing the error. -/
noncomputable def update (c : PIDController) (setpoint measurement dt : ℝ) :
    ℝ × PIDController :=
  let error := setpoint - measurement
  let integral1 := c.integral + error * dt
  let max_integral := (c.output_max - c.output_min) / (c.Ki + 1e-10)
  let integral2 := stdClamp integral1 (-max_integral) max_integral
  let derivative :=
    if c.first_update = false ∧ dt > 1e-10 then (error - c.previous_error) / dt
    else 0
  let p_term := c.Kp * error
  let i_term := c.Ki * integral2
  let d_term := c.Kd * derivative
  let output := stdClamp (p_term + i_term + d_term) c.output_min c.output_max
  (output,
   { c with integral := integral2, previous_error := error,
            first_update := false,
            p_term := p_term, i_term := i_term, d_term := d_term })

/-- `PIDController::reset` (`src/pid.cpp` lines 68–81). -/
def reset (c : PIDController) : PIDController :=
  { c with integral := 0, previous_error := 0, first_update := true,
           p_term := 0, i_term := 0, d_term := 0 }

/-- `PIDController::setOutputLimits` (`src/pid.cpp` lines 83–87). -/
def setOutputLimits (c : PIDController) (min max : ℝ) : PIDController :=
  { c with output_min := min, output_max := max }

end PIDController

/-- C2: one `update(setpoint, measurement, dt)` call computes
`error = setpoint − measurement`; the new integral is the previous integral
plus `error·dt`, clamped to `±(outputMax − outputMin)/(Ki + 1e-10)`; the
derivative is `(error − previousError)/dt` except that it is `0` on a
first update (after construction or reset) or when `dt ≤ 1e-10`; the
returned output is `clamp(Kp·error + Ki·integral + Kd·derivative,
outputMin, outputMax)`; and `error` is stored as `previousError`. -/
theorem pid_update_spec (c : PIDController) (setpoint measurement dt : ℝ) :
    let error := setpoint - measurement
    let maxIntegral := (c.output_max - c.output_min) / (c.Ki + 1e-10)
    let newIntegral := stdClamp (c.integral + error * dt) (-maxIntegral) maxIntegral
    let derivative :=
      if c.first_update = true ∨ dt ≤ 1e-10 then 0
      else (error - c.previous_error) / dt
    (c.update setpoint measurement dt).1 =
      stdClamp (c.Kp * error + c.Ki * newIntegral + c.Kd * derivative)
        c.output_min c.output_max ∧
    (c.update setpoint measurement dt).2.integral = newIntegral ∧
    (c.update setpoint measurement dt).2.previous_error = error := by
  intro error maxIntegral newIntegral derivative
  have hderiv :
      (if c.first_update = false ∧ dt > 1e-10 then (error - c.previous_error) / dt else 0)
        = derivative := by
    by_cases hf : c.first_update = true
    · simp [derivative, hf]
    · have hf' : c.first_update = false := by
        cases h : c.first_update
        · rfl
        · exact absurd h hf
      by_cases hdt : dt > 1e-10
      · simp [derivative, hf', hdt, not_le_of_gt hdt]
      · have hle : dt ≤ 1e-10 := le_of_not_lt hdt
        simp [derivative, hf', hdt, hle]
  refine ⟨?_, ?_, ?_⟩
  · simp only [PIDController.update, hderiv]
  · simp only [PIDController.update]
  · simp only [PIDController.update]

/-- C7: `reset()` zeroes the integral, the previous error and the P/I/D
term values, re-enters the uninitialized-derivative state, leaves gains and
output limits untouched, and the next `update` call returns exactly the
output and state of the first `update` of a freshly constructed controller
with the same gains and limits. -/
theorem pid_reset_fresh (c : PIDController) (setpoint measurement dt : ℝ) :
    c.reset.integral = 0 ∧
    c.reset.previous_error = 0 ∧
    c.reset.first_update = true ∧
    c.reset.p_term = 0 ∧ c.reset.i_term = 0 ∧ c.reset.d_term = 0 ∧
    c.reset.Kp = c.Kp ∧ c.reset.Ki = c.Ki ∧ c.reset.Kd = c.Kd ∧
    c.reset.output_min = c.output_min ∧ c.reset.output_max = c.output_max ∧
    c.reset.update setpoint measurement dt =
      (PIDController.make c.Kp c.Ki c.Kd c.output_min c.output_max).update
        setpoint measurement dt := by
  have hstate : c.reset = PIDController.make c.Kp c.Ki c.Kd c.output_min c.output_max := by
    cases c
    rfl
  refine ⟨rfl, rfl, rfl, rfl, rfl, rfl, rfl, rfl, rfl, rfl, rfl, ?_⟩
  rw [hstate]

namespace Atmosphere

/-- Sea-level temperature constant `T0` (`FlightDynamics/src/atmosphere.hpp`). -/
def T0 : ℝ := 288.15

/-- Sea-level pressure constant `p0`. -/
def p0 : ℝ := 101325.0

/-- Temperature lapse rate `L`. -/
def L : ℝ := 0.0065

/-- Specific gas constant `R`. -/
def R : ℝ := 287.0

/-- Gravity `g`. -/
def g : ℝ := 9.80665

/-- Heat-capacity ratio `gamma`. -/
def gamma : ℝ := 1.4

/-- `getTemperature` (`src/atmosphere.cpp`): linear lapse in the troposphere. -/
def getTemperature (h : ℝ) : ℝ := T0 - L * h

/-- `getPressure` (`src/atmosphere.cpp`): barometric formula
`p0 * pow(1 - L*h/T0, g/(R*L))`. -/
noncomputable def getPressure (h : ℝ) : ℝ :=
  p0 * (1 - (L * h) / T0) ^ (g / (R * L))

/-- `getDensity` (`src/atmosphere.cpp`): ideal gas law `p / (R * T)`. -/
noncomputable def getDensity (h : ℝ) : ℝ :=
  getPressure h / (R * getTemperature h)

/-- `getSpeedOfSound` (`src/atmosphere.cpp`): `sqrt(gamma * R * T)`. -/
noncomputable def getSpeedOfSound (h : ℝ) : ℝ :=
  Real.sqrt (gamma * R * getTemperature h)

end Atmosphere

/-- C8: for every altitude `h` in `[0, 11000]` the temperature is exactly
`288.15 − 0.0065·h`; the pressure follows the barometric formula
`101325·(1 − 0.0065·h/288.15)^(9.80665/(287·0.0065))` for every `h`;
`pressure(0)` is `101325` within `1.0` Pa; `density(0)` is `1.225` within
`0.01`; and `speedOfSound(0)` is `340.3` within `1.0`. -/
theorem atmosphere_sea_level_spec :
    (∀ h : ℝ, 0 ≤ h → h ≤ 11000 →
      Atmosphere.getTemperature h = 288.15 - 0.0065 * h) ∧
    (∀ h : ℝ, Atmosphere.getPressure h =
      101325 * (1 - 0.0065 * h / 288.15) ^ ((9.80665 / (287 * 0.0065) : ℝ))) ∧
    |Atmosphere.getPressure 0 - 101325| ≤ 1 ∧
    |Atmosphere.getDensity 0 - 1.225| ≤ 0.01 ∧
    |Atmosphere.getSpeedOfSound 0 - 340.3| ≤ 1 := by
  have hp0 : Atmosphere.getPressure 0 = 101325 := by
    simp [Atmosphere.getPressure, Atmosphere.p0, Atmosphere.L, Atmosphere.T0]
    norm_num
  refine ⟨?_, ?_, ?_, ?_, ?_⟩
  · intro h _ _
    simp [Atmosphere.getTemperature, Atmosphere.T0, Atmosphere.L]
  · intro h
    have hbase : (1 : ℝ) - (Atmosphere.L * h) / Atmosphere.T0
        = 1 - 0.0065 * h / 288.15 := by
      simp [Atmosphere.L, Atmosphere.T0]
    have hexp : Atmosphere.g / (Atmosphere.R * Atmosphere.L)
        = (9.80665 / (287 * 0.0065) : ℝ) := by
      simp [Atmosphere.g, Atmosphere.R, Atmosphere.L]
      norm_num
    simp only [Atmosphere.getPressure, Atmosphere.p0, hbase, hexp]
    norm_num
  · rw [hp0]
    norm_num
  · have hd : Atmosphere.getDensity 0 = 101325 / (287 * 288.15) := by
      simp only [Atmosphere.getDensity, hp0, Atmosphere.R, Atmosphere.getTemperature,
        Atmosphere.T0, Atmosphere.L]
      norm_num
    rw [hd, abs_le]
    constructor <;> norm_num
  · have hv : Atmosphere.gamma * Atmosphere.R * Atmosphere.getTemperature 0
        = 115778.67 := by
      simp [Atmosphere.gamma, Atmosphere.R, Atmosphere.getTemperature,
        Atmosphere.T0, Atmosphere.L]
      norm_num
    have hlo : (339.3 : ℝ) ≤ Real.sqrt 115778.67 := by
      have h2 : (339.3 : ℝ) = Real.sqrt (339.3 ^ 2) := (Real.sqrt_sq (by norm_num)).symm
      rw [h2]
      apply Real.sqrt_le_sqrt
      norm_num
    have hhi : Real.sqrt 115778.67 ≤ 341.3 := by
      have h2 : (341.3 : ℝ) = Real.sqrt (341.3 ^ 2) := (Real.sqrt_sq (by norm_num)).symm
      rw [h2]
      apply Real.sqrt_le_sqrt
      norm_num
    rw [Atmosphere.getSpeedOfSound, hv, abs_le]
    constructor <;> linarith

/-- Witness for C8 at the concrete altitude `h = 1000`. -/
theorem atmosphere_sea_level_spec_witness :
    Atmosphere.getTemperature 1000 = 288.15 - 0.0065 * 1000 :=
  atmosphere_sea_level_spec.1 1000 (by norm_num) (by norm_num)

/-- One row of an `AeroDataTable` (`src/aerodynamics/aero_data.hpp`,
`struct DataPoint`): angle of attack in radians, lift and drag coefficient. -/
structure DataPoint where
  alpha : ℝ
  CL : ℝ
  CD : ℝ

namespace AeroDataTable

/-- The scan loop of `AeroDataTable::interpolate` (lines 129–137): walk the
adjacent pairs in order; on the first pair bracketing `alpha`, return the
linear interpolation; `dflt` is the fall-through value `getValue(data.back())`. -/
noncomputable def interpLoop (gv : DataPoint → ℝ) (alpha dflt : ℝ) :
    List DataPoint → ℝ
  | p :: q :: rest =>
      if p.alpha ≤ alpha ∧ alpha ≤ q.alpha then
        gv p + ((alpha - p.alpha) / (q.alpha - p.alpha)) * (gv q - gv p)
      else interpLoop gv alpha dflt (q :: rest)
  | _ => dflt

/-- `AeroDataTable::interpolate` (lines 117–140): `0` on an empty table,
clamp to the first/last sample outside the data range, otherwise scan for
the bracketing pair. -/
noncomputable def interpolate (data : List DataPoint) (alpha : ℝ)
    (gv : DataPoint → ℝ) : ℝ :=
  match data with
  | [] => 0
  | p :: ps =>
    let lastP := (p :: ps).getLast (List.cons_ne_nil p ps)
    if alpha ≤ p.alpha then gv p
    else if lastP.alpha ≤ alpha then gv lastP
    else interpLoop gv alpha (gv lastP) (p :: ps)

/-- `AeroDataTable::getCL`. -/
noncomputable def getCL (data : List DataPoint) (alpha : ℝ) : ℝ :=
  interpolate data alpha (fun p => p.CL)

/-- `AeroDataTable::getCD`. -/
noncomputable def getCD (data : List DataPoint) (alpha : ℝ) : ℝ :=
  interpolate data alpha (fun p => p.CD)

/-- `AeroDataTable::isEmpty`. -/
def isEmpty (data : List DataPoint) : Bool := data.isEmpty

/-- Sortedness relation used throughout: strictly ascending sample angles. -/
def AscendingAlpha (data : List DataPoint) : Prop :=
  data.Pairwise (fun p q => p.alpha < q.alpha)

theorem ascending_head_le (q : DataPoint) (rest : List DataPoint)
    (hpw : AscendingAlpha (q :: rest)) (j : ℕ) (hj : j < (q :: rest).length) :
    q.alpha ≤ ((q :: rest).get ⟨j, hj⟩).alpha := by
  cases j with
  | zero => simp
  | succ m =>
    have hm : m < rest.length := by simpa using hj
    have hmem : rest.get ⟨m, hm⟩ ∈ rest := List.get_mem rest m hm
    have hlt := (List.pairwise_cons.mp hpw).1 _ hmem
    simpa using le_of_lt hlt

theorem interpLoop_bracket (gv : DataPoint → ℝ) (alpha dflt : ℝ) :
    ∀ (l : List DataPoint), AscendingAlpha l →
      ∀ (i : ℕ) (hi : i + 1 < l.length),
      (l.get ⟨i, Nat.lt_of_succ_lt hi⟩).alpha < alpha →
      alpha ≤ (l.get ⟨i + 1, hi⟩).alpha →
      interpLoop gv alpha dflt l =
        gv (l.get ⟨i, Nat.lt_of_succ_lt hi⟩) +
          ((alpha - (l.get ⟨i, Nat.lt_of_succ_lt hi⟩).alpha) /
            ((l.get ⟨i + 1, hi⟩).alpha - (l.get ⟨i, Nat.lt_of_succ_lt hi⟩).alpha)) *
          (gv (l.get ⟨i + 1, hi⟩) - gv (l.get ⟨i, Nat.lt_of_succ_lt hi⟩)) := by
  intro l
  induction l with
  | nil =>
    intro _ i hi
    simp at hi
  | cons p tl ih =>
    intro hpw i hi hlt hle
    cases tl with
    | nil =>
      simp at hi
    | cons q rest =>
      cases i with
      | zero =>
        have hcond : p.alpha ≤ alpha ∧ alpha ≤ q.alpha := by
          refine ⟨le_of_lt ?_, ?_⟩
          · simpa using hlt
          · simpa using hle
        simp [interpLoop, hcond]
      | succ k =>
        have hk1 : k + 1 < (q :: rest).length := by
          simpa [Nat.succ_lt_succ_iff] using hi
        have hk : k < (q :: rest).length := Nat.lt_of_succ_lt hk1
        have hlt' : ((q :: rest).get ⟨k, hk⟩).alpha < alpha := by
          simpa using hlt
        have hle' : alpha ≤ ((q :: rest).get ⟨k + 1, hk1⟩).alpha := by
          simpa using hle
        have hq_le : q.alpha ≤ ((q :: rest).get ⟨k, hk⟩).alpha :=
          ascending_head_le q rest ((List.pairwise_cons.mp hpw).2) k hk
        have hnotcond : ¬ (p.alpha ≤ alpha ∧ alpha ≤ q.alpha) := by
          rintro ⟨-, h2⟩
          exact absurd (lt_of_le_of_lt hq_le hlt') (not_lt.mpr h2)
        have htl : AscendingAlpha (q :: rest) := (List.pairwise_cons.mp hpw).2
        calc interpLoop gv alpha dflt (p :: q :: rest)
            = interpLoop gv alpha dflt (q :: rest) := by
              simp [interpLoop, hnotcond]
          _ = _ := by
              rw [ih htl k hk1 hlt' hle']
              simp

end AeroDataTable

namespace AeroDataTable

theorem interpolate_le_head (p : DataPoint) (ps : List DataPoint) (alpha : ℝ)
    (gv : DataPoint → ℝ) (h : alpha ≤ p.alpha) :
    interpolate (p :: ps) alpha gv = gv p := by
  simp [interpolate, h]

theorem ascending_head_lt_getLast (p : DataPoint) (ps : List DataPoint)
    (hps : ps ≠ []) (hpw : AscendingAlpha (p :: ps)) :
    p.alpha < ((p :: ps).getLast (List.cons_ne_nil p ps)).alpha := by
  rw [List.getLast_cons hps]
  exact (List.pairwise_cons.mp hpw).1 _ (List.getLast_mem hps)

theorem interpolate_ge_last (data : List DataPoint) (hne : data ≠ [])
    (hpw : AscendingAlpha data) (alpha : ℝ) (gv : DataPoint → ℝ)
    (h : (data.getLast hne).alpha ≤ alpha) :
    interpolate data alpha gv = gv (data.getLast hne) := by
  cases data with
  | nil => exact absurd rfl hne
  | cons p ps =>
    by_cases hle : alpha ≤ p.alpha
    · cases ps with
      | nil => simp [interpolate, hle]
      | cons q rest =>
        have hlt := ascending_head_lt_getLast p (q :: rest) (List.cons_ne_nil q rest) hpw
        exact absurd (lt_of_le_of_lt (le_trans h hle) hlt) (lt_irrefl _)
    · simp [interpolate, hle, h]

theorem interpolate_eq_interpLoop (p : DataPoint) (ps : List DataPoint)
    (alpha : ℝ) (gv : DataPoint → ℝ) (h1 : ¬ alpha ≤ p.alpha)
    (h2 : ¬ ((p :: ps).getLast (List.cons_ne_nil p ps)).alpha ≤ alpha) :
    interpolate (p :: ps) alpha gv
      = interpLoop gv alpha (gv ((p :: ps).getLast (List.cons_ne_nil p ps))) (p :: ps) := by
  simp [interpolate, h1, h2]

theorem ascending_get_le_getLast (data : List DataPoint) (hne : data ≠ [])
    (hpw : AscendingAlpha data) (j : ℕ) (hj : j < data.length) :
    (data.get ⟨j, hj⟩).alpha ≤ (data.getLast hne).alpha := by
  rw [List.getLast_eq_get]
  rcases Nat.lt_or_ge j (data.length - 1) with hlt | hge
  · exact le_of_lt ((List.pairwise_iff_get.mp hpw) ⟨j, hj⟩
      ⟨data.length - 1, Nat.sub_lt (List.length_pos.mpr hne) Nat.one_pos⟩ hlt)
  · have : j = data.length - 1 := le_antisymm (Nat.le_sub_one_of_lt hj) hge
    subst this
    exact le_refl _

end AeroDataTable

/-- C4: for a non-empty table with strictly ascending sample angles, the
table lookup (`AeroDataTable::interpolate`, through which `getCL`/`getCD`
are defined) returns the first sample's value for `alpha` at or below the
minimum angle, the last sample's value for `alpha` at or above the maximum
angle, the stored value exactly at a sample angle, and the linear
interpolation by fractional position between a bracketing pair. -/
theorem aero_table_lookup_spec (data : List DataPoint) (hne : data ≠ [])
    (hpw : AeroDataTable.AscendingAlpha data) :
    (∀ (alpha : ℝ) (gv : DataPoint → ℝ), alpha ≤ (data.head hne).alpha →
      AeroDataTable.interpolate data alpha gv = gv (data.head hne)) ∧
    (∀ (alpha : ℝ) (gv : DataPoint → ℝ), (data.getLast hne).alpha ≤ alpha →
      AeroDataTable.interpolate data alpha gv = gv (data.getLast hne)) ∧
    (∀ p ∈ data, ∀ gv : DataPoint → ℝ,
      AeroDataTable.interpolate data p.alpha gv = gv p) ∧
    (∀ (alpha : ℝ) (gv : DataPoint → ℝ) (i : ℕ) (hi : i + 1 < data.length),
      (data.get ⟨i, Nat.lt_of_succ_lt hi⟩).alpha < alpha →
      alpha < (data.get ⟨i + 1, hi⟩).alpha →
      AeroDataTable.interpolate data alpha gv =
        gv (data.get ⟨i, Nat.lt_of_succ_lt hi⟩) +
          ((alpha - (data.get ⟨i, Nat.lt_of_succ_lt hi⟩).alpha) /
            ((data.get ⟨i + 1, hi⟩).alpha - (data.get ⟨i, Nat.lt_of_succ_lt hi⟩).alpha)) *
          (gv (data.get ⟨i + 1, hi⟩) - gv (data.get ⟨i, Nat.lt_of_succ_lt hi⟩))) ∧
    (∀ alpha : ℝ,
      AeroDataTable.getCL data alpha
        = AeroDataTable.interpolate data alpha (fun p => p.CL) ∧
      AeroDataTable.getCD data alpha
        = AeroDataTable.interpolate data alpha (fun p => p.CD)) := by
  obtain ⟨p, ps, rfl⟩ : ∃ p ps, data = p :: ps := by
    cases data with
    | nil => exact absurd rfl hne
    | cons p ps => exact ⟨p, ps, rfl⟩
  have hbracket :
      ∀ (alpha : ℝ) (gv : DataPoint → ℝ) (i : ℕ) (hi : i + 1 < (p :: ps).length),
        ((p :: ps).get ⟨i, Nat.lt_of_succ_lt hi⟩).alpha < alpha →
        alpha ≤ ((p :: ps).get ⟨i + 1, hi⟩).alpha →
        alpha < ((p :: ps).getLast (List.cons_ne_nil p ps)).alpha →
        AeroDataTable.interpolate (p :: ps) alpha gv =
          gv ((p :: ps).get ⟨i, Nat.lt_of_succ_lt hi⟩) +
            ((alpha - ((p :: ps).get ⟨i, Nat.lt_of_succ_lt hi⟩).alpha) /
              (((p :: ps).get ⟨i + 1, hi⟩).alpha - ((p :: ps).get ⟨i, Nat.lt_of_succ_lt hi⟩).alpha)) *
            (gv ((p :: ps).get ⟨i + 1, hi⟩) - gv ((p :: ps).get ⟨i, Nat.lt_of_succ_lt hi⟩)) := by
    intro alpha gv i hi h1 h2 hsm
    have hp0 : p.alpha ≤ ((p :: ps).get ⟨i, Nat.lt_of_succ_lt hi⟩).alpha :=
      AeroDataTable.ascending_head_le p ps hpw i (Nat.lt_of_succ_lt hi)
    have hc1 : ¬ alpha ≤ p.alpha := not_le.mpr (lt_of_le_of_lt hp0 h1)
    have hc2 : ¬ ((p :: ps).getLast (List.cons_ne_nil p ps)).alpha ≤ alpha :=
      not_le.mpr hsm
    rw [AeroDataTable.interpolate_eq_interpLoop p ps alpha gv hc1 hc2]
    exact AeroDataTable.interpLoop_bracket gv alpha _ (p :: ps) hpw i hi h1 h2
  refine ⟨?_, ?_, ?_, ?_, fun alpha => ⟨rfl, rfl⟩⟩
  · intro alpha gv h
    exact AeroDataTable.interpolate_le_head p ps alpha gv h
  · intro alpha gv h
    exact AeroDataTable.interpolate_ge_last (p :: ps) hne hpw alpha gv h
  · intro q hq gv
    obtain ⟨⟨j, hj⟩, rfl⟩ := List.mem_iff_get.mp hq
    rcases Nat.eq_zero_or_pos j with hj0 | hjpos
    · subst hj0
      exact AeroDataTable.interpolate_le_head p ps _ gv (le_of_eq rfl)
    · rcases Nat.lt_or_ge (j + 1) (p :: ps).length with hmid | hlastidx
      · -- interior sample point: the pair (j-1, j) brackets it with t = 1
        obtain ⟨k, rfl⟩ : ∃ k, j = k + 1 := ⟨j - 1, (Nat.succ_pred_eq_of_pos hjpos).symm⟩
        have hadj : ((p :: ps).get ⟨k, Nat.lt_of_succ_lt hj⟩).alpha
            < ((p :: ps).get ⟨k + 1, hj⟩).alpha :=
          (List.pairwise_iff_get.mp hpw) ⟨k, Nat.lt_of_succ_lt hj⟩ ⟨k + 1, hj⟩
            (Nat.lt_succ_self k)
        have hsm : ((p :: ps).get ⟨k + 1, hj⟩).alpha
            < ((p :: ps).getLast (List.cons_ne_nil p ps)).alpha := by
          have hle := AeroDataTable.ascending_get_le_getLast (p :: ps)
            (List.cons_ne_nil p ps) hpw (k + 2)
            (by simp only [List.length_cons] at hmid ⊢; omega)
          have hstep : ((p :: ps).get ⟨k + 1, hj⟩).alpha
              < ((p :: ps).get ⟨k + 2, by simp only [List.length_cons] at hmid ⊢; omega⟩).alpha :=
            (List.pairwise_iff_get.mp hpw) ⟨k + 1, hj⟩ ⟨k + 2, by simp only [List.length_cons] at hmid ⊢; omega⟩
              (Nat.lt_succ_self _)
          exact lt_of_lt_of_le hstep hle
        have h := hbracket ((p :: ps).get ⟨k + 1, hj⟩).alpha gv k hj hadj (le_refl _) hsm
        rw [h, div_self (ne_of_gt (sub_pos.mpr hadj))]
        ring
      · -- the sample point is the last one
        have hj_eq : j = (p :: ps).length - 1 := by
          omega
        have hgl : (p :: ps).get ⟨j, hj⟩ = (p :: ps).getLast (List.cons_ne_nil p ps) := by
          rw [List.getLast_eq_get]
          congr 1
          exact (Fin.mk_eq_mk).mpr hj_eq
        rw [hgl]
        exact AeroDataTable.interpolate_ge_last (p :: ps) (List.cons_ne_nil p ps) hpw _ gv
          (le_refl _)
  · intro alpha gv i hi h1 h2
    have hsm : alpha < ((p :: ps).getLast (List.cons_ne_nil p ps)).alpha := by
      have hle := AeroDataTable.ascending_get_le_getLast (p :: ps)
        (List.cons_ne_nil p ps) hpw (i + 1) hi
      exact lt_of_lt_of_le h2 hle
    exact hbracket alpha gv i hi h1 (le_of_lt h2) hsm

/-- Witness for C4: a concrete two-point table queried below its minimum
angle returns the first sample's CL. -/
theorem aero_table_lookup_spec_witness :
    AeroDataTable.interpolate [⟨0, 1, 2⟩, ⟨2, 5, 9⟩] (-1) (fun p => p.CL) = 1 := by
  have h := (aero_table_lookup_spec [⟨0, 1, 2⟩, ⟨2, 5, 9⟩]
    (by simp)
    (by simp [AeroDataTable.AscendingAlpha])).1
    (-1) (fun p => p.CL) (by simp [List.head_cons])
  simpa using h

namespace AeroDataTable

/-- A parsed CSV row of `loadFromCSV`, kept in exact arithmetic: the angle
still in degrees (the source multiplies it by `M_PI/180` as it parses; the
model applies that strictly monotone conversion in `toTable` below, after
the sort, which yields the same ordering and the same table). -/
structure RawPoint where
  alphaDeg : ℚ
  CL : ℚ
  CD : ℚ
  deriving DecidableEq

/-- The whitespace set of the blank-line check in `loadFromCSV`
(`line.find_first_not_of(" \t\r\n")`). -/
def isBlankChar (c : Char) : Bool :=
  c == ' ' || c == '\t' || c == '\r' || c == '\n'

/-- A line that `loadFromCSV` skips as empty: every character is in the
whitespace set (an empty line included). -/
def isBlankLine (l : List Char) : Bool := l.all isBlankChar

/-- `isalpha(line[0])` of the header check; `false` on an empty line. -/
def headIsAlpha (l : List Char) : Bool :=
  match l with
  | [] => false
  | c :: _ => c.isAlpha

/-- Split a character list at every comma (helper for `cppGetlineTokens`). -/
def splitComma : List Char → List (List Char)
  | [] => [[]]
  | c :: cs =>
    if c = ',' then [] :: splitComma cs
    else
      match splitComma cs with
      | t :: ts => (c :: t) :: ts
      | [] => [[c]]

/-- The token sequence produced by repeated `std::getline(ss, token, ',')`
on a stringstream of `l`: the comma-separated fields, except that a field
after a trailing comma is never produced (the stream is at EOF) and an
empty stream yields no token at all. -/
def cppGetlineTokens (l : List Char) : List (List Char) :=
  match l with
  | [] => []
  | _ =>
    if l.getLast? = some ',' then (splitComma l).dropLast else splitComma l

/-- The whitespace set `std::stod` skips (C locale `isspace`). -/
def isSpaceCpp (c : Char) : Bool :=
  c == ' ' || c == '\t' || c == '\n' || c == '\x0b' || c == '\x0c' || c == '\r'

/-- Digit accumulator: consume leading decimal digits of the list, with
`acc`/`cnt` the value and count so far; returns value, digit count, rest. -/
def takeDigits (acc cnt : ℕ) : List Char → ℕ × ℕ × List Char
  | [] => (acc, cnt, [])
  | c :: cs =>
    if c.isDigit then takeDigits (10 * acc + (c.toNat - '0'.toNat)) (cnt + 1) cs
    else (acc, cnt, c :: cs)

/-- Model of `std::stod` for decimal numerals: skip leading whitespace, an
optional sign, integer digits, an optional fraction, an optional exponent
(ignored unless at least one exponent digit follows, as in `strtod`);
`none` when no digit at all is consumed — the case where `std::stod`
throws `std::invalid_argument`.  Hex/infinity/NaN forms are not modelled;
no input in this development uses them. -/
def stod (l : List Char) : Option ℚ :=
  let l1 := l.dropWhile isSpaceCpp
  let sl2 : ℚ × List Char :=
    match l1 with
    | '-' :: r => (-1, r)
    | '+' :: r => (1, r)
    | _ => (1, l1)
  let (ip, icnt, l3) := takeDigits 0 0 sl2.2
  let fr3 : ℕ × ℕ × List Char :=
    match l3 with
    | '.' :: r => takeDigits 0 0 r
    | _ => (0, 0, l3)
  let (fp, fcnt, l4) := fr3
  if icnt = 0 ∧ fcnt = 0 then none
  else
    let mant : ℚ := sl2.1 * ((ip : ℚ) + (fp : ℚ) / (10 : ℚ) ^ fcnt)
    match l4 with
    | [] => some mant
    | e :: r =>
      if e == 'e' || e == 'E' then
        let er : Bool × List Char :=
          match r with
          | '-' :: rr => (true, rr)
          | '+' :: rr => (false, rr)
          | _ => (false, r)
        let (ev, ecnt, _) := takeDigits 0 0 er.2
        if ecnt = 0 then some mant
        else if er.1 then some (mant / (10 : ℚ) ^ ev)
        else some (mant * (10 : ℚ) ^ ev)
      else some mant

/-- One iteration of the parse loop of `loadFromCSV` on a non-blank,
non-header line: read up to three comma tokens; a missing token skips the
row (`continue`); a token `std::stod` cannot convert raises
(`Except.error`), as the exception propagates out of `loadFromCSV`. -/
def parseRow (line : List Char) : Except String (Option RawPoint) :=
  match cppGetlineTokens line with
  | [] => .ok none
  | t0 :: rest0 =>
    match stod t0 with
    | none => .error "stod: no conversion"
    | some a =>
      match rest0 with
      | [] => .ok none
      | t1 :: rest1 =>
        match stod t1 with
        | none => .error "stod: no conversion"
        | some cl =>
          match rest1 with
          | [] => .ok none
          | t2 :: _ =>
            match stod t2 with
            | none => .error "stod: no conversion"
            | some cd => .ok (some ⟨a, cl, cd⟩)

/-- The line loop of `loadFromCSV`: skip blank lines (they do not consume
the first-line flag), skip the first non-blank line when its first
character is alphabetic, parse every other line with `parseRow`,
propagating its exception. -/
def parseRows : Bool → List (List Char) → Except String (List RawPoint)
  | _, [] => .ok []
  | firstLine, l :: ls =>
    if isBlankLine l then parseRows firstLine ls
    else if firstLine && headIsAlpha l then parseRows false ls
    else
      match parseRow l with
      | .error msg => .error msg
      | .ok none => parseRows false ls
      | .ok (some pt) =>
        match parseRows false ls with
        | .error msg => .error msg
        | .ok pts => .ok (pt :: pts)

/-- The comparator `a.alpha < b.alpha` of the `std::sort` call, weakened to
its non-strict closure (any correct sort for that comparator is sorted for
`≤`; ordering by the degree value equals ordering by the radian value). -/
def degLE (a b : RawPoint) : Prop := a.alphaDeg ≤ b.alphaDeg

instance : DecidableRel degLE := fun a b => by
  unfold degLE
  infer_instance

instance : IsTotal RawPoint degLE := ⟨fun a b => le_total a.alphaDeg b.alphaDeg⟩

instance : IsTrans RawPoint degLE := ⟨fun _ _ _ h1 h2 => le_trans h1 h2⟩

/-- `AeroDataTable::loadFromCSV` (`src/aerodynamics/aero_data.hpp` lines
29–90).  The file system is abstracted: `none` stands for a file that
could not be opened, `some lines` for its line sequence.  Unreadable input
and a parse yielding no rows produce the source's two `runtime_error`s;
otherwise the rows are sorted ascending by angle. -/
def loadFromCSV (input : Option (List (List Char))) :
    Except String (List RawPoint) :=
  match input with
  | none => .error "Failed to open aero data file"
  | some lines =>
    match parseRows true lines with
    | .error msg => .error msg
    | .ok pts =>
      if pts = [] then .error "No valid data found"
      else .ok (List.insertionSort degLE pts)

/-- Degrees-to-radians conversion of each parsed row (`point.alpha =
std::stod(token) * M_PI / 180.0` in the source), producing the
`DataPoint`s the interpolation runs on. -/
noncomputable def toTable (pts : List RawPoint) : List DataPoint :=
  pts.map (fun r => ⟨(r.alphaDeg : ℝ) * Real.pi / 180, (r.CL : ℝ), (r.CD : ℝ)⟩)

end AeroDataTable

/-- C5 counterexample: the claim says a row whose angle field is
non-numeric is a header row and is skipped.  In the code only the *first*
non-blank line is ever considered a header: with lines `"0,1,2"` and
`"alpha,3,4"` the second row's non-numeric angle makes the whole load fail
(the `std::stod` exception propagates) even though the source is readable
and yields one valid data point — as witnessed by the same valid row
loading alone, and by the same non-numeric row being skipped when it comes
first. -/
theorem csv_header_skip_counterexample :
    AeroDataTable.loadFromCSV (some ["0,1,2".toList, "alpha,3,4".toList])
      = .error "stod: no conversion" ∧
    AeroDataTable.loadFromCSV (some ["0,1,2".toList]) = .ok [⟨0, 1, 2⟩] ∧
    AeroDataTable.loadFromCSV (some ["alpha,3,4".toList, "0,1,2".toList])
      = .ok [⟨0, 1, 2⟩] := by
  refine ⟨?_, ?_, ?_⟩ <;>
    simp [AeroDataTable.loadFromCSV, AeroDataTable.parseRows, AeroDataTable.parseRow,
      AeroDataTable.cppGetlineTokens, AeroDataTable.splitComma, AeroDataTable.stod,
      AeroDataTable.takeDigits, AeroDataTable.isBlankLine, AeroDataTable.isBlankChar,
      AeroDataTable.headIsAlpha, AeroDataTable.isSpaceCpp, String.toList,
      AeroDataTable.degLE]

/-- C5 (amended): loading fails with a `DataError` when the source is
unreadable or the parse yields zero valid data points, and additionally
fails with a propagated parse error when any parsed (non-skipped) row has
a field `std::stod` cannot convert; only the first non-blank row is
treated as a potential header and is skipped exactly when its first
character is alphabetic (blank lines are skipped without consuming that
status); on success the rows are sorted ascending by angle and each
table angle is the parsed degree value times `π/180`. -/
theorem csv_load_spec :
    AeroDataTable.loadFromCSV none = .error "Failed to open aero data file" ∧
    (∀ lines, (∃ msg, AeroDataTable.loadFromCSV (some lines) = .error msg) ↔
       ((∃ msg, AeroDataTable.parseRows true lines = .error msg) ∨
        AeroDataTable.parseRows true lines = .ok [])) ∧
    (∀ (b : Bool) (l : List Char) ls, AeroDataTable.isBlankLine l = true →
       AeroDataTable.parseRows b (l :: ls) = AeroDataTable.parseRows b ls) ∧
    (∀ (l : List Char) ls, AeroDataTable.isBlankLine l = false →
       AeroDataTable.headIsAlpha l = true →
       AeroDataTable.parseRows true (l :: ls) = AeroDataTable.parseRows false ls) ∧
    (∀ (l : List Char) ls, AeroDataTable.isBlankLine l = false →
       AeroDataTable.parseRow l = .error "stod: no conversion" →
       AeroDataTable.parseRows false (l :: ls) = .error "stod: no conversion") ∧
    (∀ lines pts, AeroDataTable.loadFromCSV (some lines) = .ok pts →
       pts ≠ [] ∧ pts.Sorted AeroDataTable.degLE ∧
       (AeroDataTable.toTable pts).Sorted (fun p q => p.alpha ≤ q.alpha) ∧
       ∀ q ∈ AeroDataTable.toTable pts, ∃ r ∈ pts,
         q.alpha = (r.alphaDeg : ℝ) * Real.pi / 180 ∧
         q.CL = (r.CL : ℝ) ∧ q.CD = (r.CD : ℝ)) := by
  refine ⟨rfl, ?_, ?_, ?_, ?_, ?_⟩
  · intro lines
    simp only [AeroDataTable.loadFromCSV]
    cases hp : AeroDataTable.parseRows true lines with
    | error msg => simp
    | ok pts =>
      by_cases hnil : pts = []
      · subst hnil
        simp
      · simp [hnil]
  · intro b l ls h
    simp [AeroDataTable.parseRows, h]
  · intro l ls h1 h2
    simp [AeroDataTable.parseRows, h1, h2]
  · intro l ls h1 h2
    simp [AeroDataTable.parseRows, h1, h2]
  · intro lines pts h
    simp only [AeroDataTable.loadFromCSV] at h
    cases hp : AeroDataTable.parseRows true lines with
    | error msg => rw [hp] at h; exact absurd h (by simp)
    | ok pts0 =>
      rw [hp] at h
      dsimp only at h
      by_cases hnil : pts0 = []
      · rw [if_pos hnil] at h
        exact absurd h (by simp)
      · rw [if_neg hnil] at h
        have hpts : List.insertionSort AeroDataTable.degLE pts0 = pts :=
          Except.ok.inj h
        subst hpts
        have hsorted := List.sorted_insertionSort AeroDataTable.degLE pts0
        refine ⟨?_, hsorted, ?_, ?_⟩
        · have hlen := (List.perm_insertionSort AeroDataTable.degLE pts0).length_eq
          have : 0 < pts0.length := List.length_pos.mpr hnil
          intro hcontra
          rw [hcontra] at hlen
          simp at hlen
          exact hnil (List.eq_nil_of_length_eq_zero hlen.symm)
        · unfold AeroDataTable.toTable
          rw [List.Sorted, List.pairwise_map]
          refine hsorted.imp ?_
          intro a b hab
          have hcast : (a.alphaDeg : ℝ) ≤ (b.alphaDeg : ℝ) := by exact_mod_cast hab
          have hmul := mul_le_mul_of_nonneg_right hcast Real.pi_pos.le
          linarith
        · intro q hq
          unfold AeroDataTable.toTable at hq
          obtain ⟨r, hr, rfl⟩ := List.mem_map.mp hq
          exact ⟨r, hr, rfl, rfl, rfl⟩

/-- Witness for C5: a concrete first line starting with a letter is skipped
as a header. -/
theorem csv_load_spec_witness :
    AeroDataTable.parseRows true ["alpha,CL,CD".toList, "5,6,7".toList]
      = AeroDataTable.parseRows false ["5,6,7".toList] :=
  csv_load_spec.2.2.2.1 "alpha,CL,CD".toList ["5,6,7".toList] (by decide) (by decide)

/-- The `Aircraft` parameter record (`src/aircraft/aircraft.hpp`): physical
and legacy aerodynamic properties, plus the optional aerodynamic table
(`shared_ptr` in the source, `Option` here) and the name of its file. -/
structure Aircraft where
  mass : ℝ
  S : ℝ
  CL_alpha : ℝ
  CD0 : ℝ
  k : ℝ
  maxThrust : ℝ
  aeroTable : Option (List DataPoint)
  aeroDataFile : List Char

/-- `Aircraft::hasAeroTable`: the table pointer is non-null. -/
def Aircraft.hasAeroTable (ac : Aircraft) : Bool := ac.aeroTable.isSome

namespace AircraftLoader

/-- Model of `AircraftLoader::loadFromJSON`
(`src/aircraft/aircraft_loader.hpp`).  The file system and the flat JSON
field extraction are abstracted: `fields` is the combined result of the
six required `parseDouble` calls (`none` when any of them throws — a
missing or malformed key), `aeroFile` the result of
`parseString(content, "aeroDataFile")` (empty when the field is absent),
and `aeroContents` the read of that file (`none` = unreadable).  The
optional-table region (source lines 53–75) is modelled faithfully: a
failing `loadFromCSV` is caught and downgraded to a null `aeroTable`. -/
noncomputable def loadFromJSON (fields : Option (ℝ × ℝ × ℝ × ℝ × ℝ × ℝ))
    (aeroFile : List Char) (aeroContents : Option (List (List Char))) :
    Except String Aircraft :=
  match fields with
  | none => .error "Key not found in JSON"
  | some (m, S, cla, cd0, kk, mt) =>
    let ac : Aircraft := ⟨m, S, cla, cd0, kk, mt, none, []⟩
    if aeroFile = [] then .ok ac
    else
      let ac1 := { ac with aeroDataFile := aeroFile }
      match AeroDataTable.loadFromCSV aeroContents with
      | .ok pts => .ok { ac1 with aeroTable := some (AeroDataTable.toTable pts) }
      | .error _ => .ok { ac1 with aeroTable := none }

end AircraftLoader

/-- C6: when the configuration names an optional aerodynamic dataset file
and loading that dataset fails, `loadFromJSON` still returns a valid
`Aircraft` (an `ok` result — no error propagates to the caller) whose
`aeroTable` is null, so the legacy coefficient fields are used unchanged. -/
theorem aircraft_loader_fallback (m S cla cd0 kk mt : ℝ)
    (aeroFile : List Char) (aeroContents : Option (List (List Char)))
    (hfile : aeroFile ≠ [])
    (hfail : ∃ msg, AeroDataTable.loadFromCSV aeroContents = .error msg) :
    AircraftLoader.loadFromJSON (some (m, S, cla, cd0, kk, mt)) aeroFile aeroContents
      = .ok ⟨m, S, cla, cd0, kk, mt, none, aeroFile⟩ := by
  obtain ⟨msg, hmsg⟩ := hfail
  simp [AircraftLoader.loadFromJSON, hfile, hmsg]

/-- Witness for C6: an unreadable dataset file silently falls back to the
legacy coefficients. -/
theorem aircraft_loader_fallback_witness :
    AircraftLoader.loadFromJSON (some (120, 1.6, 5.7, 0.025, 0.04, 500))
        "missing.csv".toList none
      = .ok ⟨120, 1.6, 5.7, 0.025, 0.04, 500, none, "missing.csv".toList⟩ :=
  aircraft_loader_fallback 120 1.6 5.7 0.025 0.04 500 "missing.csv".toList none
    (by decide) ⟨"Failed to open aero data file", rfl⟩

/-- `calcCL` legacy overload (`src/aerodynamics/aero.cpp`): linear lift
slope, `alpha` in radians. -/
noncomputable def calcCL (alpha CL_alpha : ℝ) : ℝ := CL_alpha * alpha

/-- `calcCD` legacy overload: parabolic drag polar `CD0 + k·CL²`. -/
noncomputable def calcCD (CL CD0 k : ℝ) : ℝ := CD0 + k * CL * CL

/-- `calcCL(alpha, const AeroDataTable*)`: table lookup when the pointer is
non-null and the table non-empty, else `0`. -/
noncomputable def calcCLtable (alpha : ℝ) (table : Option (List DataPoint)) : ℝ :=
  match table with
  | some tb => if AeroDataTable.isEmpty tb = false then AeroDataTable.getCL tb alpha else 0
  | none => 0

/-- `calcCD(alpha, const AeroDataTable*)`. -/
noncomputable def calcCDtable (alpha : ℝ) (table : Option (List DataPoint)) : ℝ :=
  match table with
  | some tb => if AeroDataTable.isEmpty tb = false then AeroDataTable.getCD tb alpha else 0
  | none => 0

/-- `calcLift`: `0.5 · ρ · V² · S · CL`. -/
noncomputable def calcLift (rho V S CL : ℝ) : ℝ := 0.5 * rho * V * V * S * CL

/-- `calcDrag`: `0.5 · ρ · V² · S · CD`. -/
noncomputable def calcDrag (rho V S CD : ℝ) : ℝ := 0.5 * rho * V * V * S * CD

/-- `calcWeight`: `mass · g`. -/
noncomputable def calcWeight (mass g : ℝ) : ℝ := mass * g

/-- `calcThrust`: `throttle · maxThrust`. -/
noncomputable def calcThrust (throttle maxThrust : ℝ) : ℝ := throttle * maxThrust

/-- The fields of `SimulationState` (`src/simulation/simulation_state.hpp`)
that `updatePhysics` reads or writes.  The orientation fields the tick
never touches (`elevator`, `pitch_deg`, `pitch_rate`, `reset_requested`)
are omitted; `float`-typed control fields are idealized as reals like the
doubles. -/
structure SimulationState where
  aircraft : Aircraft
  position : Vec2
  velocity : Vec2
  t : ℝ
  dt : ℝ
  throttle : ℝ
  alpha_deg : ℝ
  paused : Bool
  autopilot_speed : Bool
  speed_setpoint : ℝ
  pid_kp : ℝ
  pid_ki : ℝ
  pid_kd : ℝ
  speed_pid : PIDController
  prev_pid_kp : ℝ
  prev_pid_ki : ℝ
  prev_pid_kd : ℝ
  autopilot_altitude : Bool
  altitude_setpoint : ℝ
  alt_pid_kp : ℝ
  alt_pid_ki : ℝ
  alt_pid_kd : ℝ
  altitude_pid : PIDController
  prev_alt_pid_kp : ℝ
  prev_alt_pid_ki : ℝ
  prev_alt_pid_kd : ℝ
  flightPath : List (ℝ × ℝ)
  maxPathPoints : ℕ
  F_thrust_viz : Vec2
  F_drag_viz : Vec2
  F_lift_viz : Vec2
  F_weight_viz : Vec2

/-- The speed-autopilot gain-change test of `updatePhysics` (line 26). -/
def speedGainsChanged (s : SimulationState) : Prop :=
  s.pid_kp ≠ s.prev_pid_kp ∨ s.pid_ki ≠ s.prev_pid_ki ∨ s.pid_kd ≠ s.prev_pid_kd

/-- The altitude-autopilot gain-change test of `updatePhysics` (line 39). -/
def altGainsChanged (s : SimulationState) : Prop :=
  s.alt_pid_kp ≠ s.prev_alt_pid_kp ∨ s.alt_pid_ki ≠ s.prev_alt_pid_ki ∨
    s.alt_pid_kd ≠ s.prev_alt_pid_kd

open Classical in
/-- Speed-autopilot block of `updatePhysics` (lines 24–34): when enabled,
reconstruct the PID with limits `(0, 1)` if any gain changed (recording the
gains as previous), then run one update on the speed error and overwrite
the throttle. -/
noncomputable def runSpeedAutopilot (s : SimulationState) (speed : ℝ) :
    SimulationState :=
  if s.autopilot_speed then
    let s1 :=
      if speedGainsChanged s then
        { s with speed_pid := PIDController.make s.pid_kp s.pid_ki s.pid_kd 0 1,
                 prev_pid_kp := s.pid_kp, prev_pid_ki := s.pid_ki,
                 prev_pid_kd := s.pid_kd }
      else s
    let r := s1.speed_pid.update s1.speed_setpoint speed s1.dt
    { s1 with throttle := r.1, speed_pid := r.2 }
  else s

open Classical in
/-- Altitude-autopilot block of `updatePhysics` (lines 37–47): same
pattern with limits `(−10, 15)`, overwriting the angle-of-attack input. -/
noncomputable def runAltitudeAutopilot (s : SimulationState) (altitude : ℝ) :
    SimulationState :=
  if s.autopilot_altitude then
    let s1 :=
      if altGainsChanged s then
        { s with altitude_pid :=
                   PIDController.make s.alt_pid_kp s.alt_pid_ki s.alt_pid_kd (-10) 15,
                 prev_alt_pid_kp := s.alt_pid_kp, prev_alt_pid_ki := s.alt_pid_ki,
                 prev_alt_pid_kd := s.alt_pid_kd }
      else s
    let r := s1.altitude_pid.update s1.altitude_setpoint altitude s1.dt
    { s1 with alpha_deg := r.1, altitude_pid := r.2 }
  else s

open Classical in
/-- Velocity direction of `updatePhysics` (line 49): the normalized
velocity, or the default unit vector `(1, 0)` at (near-)zero speed. -/
noncomputable def velocityDirOf (velocity : Vec2) : Vec2 :=
  if velocity.magnitude > 1e-6 then velocity.normalized else ⟨1, 0⟩

open Classical in
/-- Force composition of `updatePhysics` (lines 49–84): coefficients from
the table when the aircraft has one, else the legacy model; force
magnitudes; thrust along the velocity direction rotated by alpha, drag
opposite the velocity direction (zero at near-zero speed), lift
perpendicular, weight straight down.  Returns
`(F_thrust, F_drag, F_lift, F_weight)`. -/
noncomputable def tickForces (aircraft : Aircraft) (velocity : Vec2)
    (altitude throttle alpha_deg : ℝ) : Vec2 × Vec2 × Vec2 × Vec2 :=
  let speed := velocity.magnitude
  let velocityDir := velocityDirOf velocity
  let alpha := alpha_deg * Real.pi / 180
  let rho := Atmosphere.getDensity (max 0 altitude)
  let CL := if aircraft.hasAeroTable then calcCLtable alpha aircraft.aeroTable
            else calcCL alpha aircraft.CL_alpha
  let CD := if aircraft.hasAeroTable then calcCDtable alpha aircraft.aeroTable
            else calcCD CL aircraft.CD0 aircraft.k
  let L_mag := calcLift rho speed aircraft.S CL
  let D_mag := calcDrag rho speed aircraft.S CD
  let W_mag := calcWeight aircraft.mass Atmosphere.g
  let T_mag := calcThrust throttle aircraft.maxThrust
  let F_thrust := (velocityDir.rotated alpha) * T_mag
  let F_drag := if speed > 1e-6 then velocityDir * (-D_mag) else (⟨0, 0⟩ : Vec2)
  let F_lift := (velocityDir.rotated (Real.pi / 2)) * L_mag
  let F_weight : Vec2 := ⟨0, -W_mag⟩
  (F_thrust, F_drag, F_lift, F_weight)

open Classical in
/-- Ground constraint of `updatePhysics` (lines 96–103), applied to the
post-integration position and velocity: below ground, clamp altitude to
zero, zero any downward vertical speed, and come to rest (zero velocity)
when slow with the throttle closed. -/
noncomputable def groundConstraint (position velocity : Vec2) (throttle : ℝ) :
    Vec2 × Vec2 :=
  if position.y < 0 then
    let position1 : Vec2 := ⟨position.x, 0⟩
    let velocity1 : Vec2 := if velocity.y < 0 then ⟨velocity.x, 0⟩ else velocity
    let velocity2 : Vec2 :=
      if velocity1.magnitude < 0.1 ∧ throttle < 0.01 then (⟨0, 0⟩ : Vec2)
      else velocity1
    (position1, velocity2)
  else (position, velocity)

open Classical in
/-- `updatePhysics` (`src/simulation/physics_update.hpp`): one simulation
tick — autopilots, force composition, Newton's second law, RK4
integration, ground constraint, bounded flight-path history, time
advance. -/
noncomputable def updatePhysics (s : SimulationState) : SimulationState :=
  if s.paused then s
  else
    let altitude := s.position.y
    let speed := s.velocity.magnitude
    let s2 := runAltitudeAutopilot (runSpeedAutopilot s speed) altitude
    let forces := tickForces s2.aircraft s2.velocity altitude s2.throttle s2.alpha_deg
    let F_net := forces.1 + forces.2.1 + forces.2.2.1 + forces.2.2.2
    let acceleration := F_net / s2.aircraft.mass
    let pv := integrateRK4 s2.position s2.velocity acceleration s2.dt
    let pg := groundConstraint pv.1 pv.2 s2.throttle
    let newPoint := (pg.1.x, pg.1.y)
    let newPath :=
      if s2.flightPath.length < s2.maxPathPoints then s2.flightPath ++ [newPoint]
      else s2.flightPath.drop 1 ++ [newPoint]
    { s2 with position := pg.1, velocity := pg.2,
              F_thrust_viz := forces.1, F_drag_viz := forces.2.1,
              F_lift_viz := forces.2.2.1, F_weight_viz := forces.2.2.2,
              flightPath := newPath, t := s2.t + s2.dt }

/-- C3: the ground constraint applied after RK4 integration inside
`updatePhysics`.  If the integrated `position.y` is negative it is clamped
to `0` (x untouched); a negative `velocity.y` is zeroed; if the resulting
speed is below `0.1` and the throttle below `0.01` the velocity becomes
exactly `(0, 0)`; a state with `position.y ≥ 0` passes through unchanged. -/
theorem ground_constraint_spec (position velocity : Vec2) (throttle : ℝ) :
    (position.y < 0 →
      (groundConstraint position velocity throttle).1 = ⟨position.x, 0⟩ ∧
      (velocity.y < 0 →
        ((⟨velocity.x, 0⟩ : Vec2).magnitude < 0.1 ∧ throttle < 0.01 →
          (groundConstraint position velocity throttle).2 = ⟨0, 0⟩) ∧
        (¬ ((⟨velocity.x, 0⟩ : Vec2).magnitude < 0.1 ∧ throttle < 0.01) →
          (groundConstraint position velocity throttle).2 = ⟨velocity.x, 0⟩)) ∧
      (0 ≤ velocity.y →
        (velocity.magnitude < 0.1 ∧ throttle < 0.01 →
          (groundConstraint position velocity throttle).2 = ⟨0, 0⟩) ∧
        (¬ (velocity.magnitude < 0.1 ∧ throttle < 0.01) →
          (groundConstraint position velocity throttle).2 = velocity))) ∧
    (0 ≤ position.y →
      groundConstraint position velocity throttle = (position, velocity)) := by
  constructor
  · intro hpy
    refine ⟨by simp [groundConstraint, hpy], ?_, ?_⟩
    · intro hvy
      constructor
      · intro hrest
        simp [groundConstraint, hpy, hvy, hrest]
      · intro hrest
        simp [groundConstraint, hpy, hvy, hrest]
    · intro hvy
      have hvy' : ¬ velocity.y < 0 := not_lt.mpr hvy
      constructor
      · intro hrest
        simp [groundConstraint, hpy, hvy', hrest]
      · intro hrest
        simp [groundConstraint, hpy, hvy', hrest]
  · intro hpy
    have hpy' : ¬ position.y < 0 := not_lt.mpr hpy
    simp [groundConstraint, hpy']

/-- Witness for C3: a below-ground state with downward velocity and closed
throttle is clamped to altitude zero. -/
theorem ground_constraint_spec_witness :
    (groundConstraint ⟨3, -1⟩ ⟨0, -2⟩ 0).1 = ⟨3, 0⟩ :=
  ((ground_constraint_spec ⟨3, -1⟩ ⟨0, -2⟩ 0).1 (by norm_num)).1

theorem runSpeedAutopilot_keeps (s : SimulationState) (speed : ℝ) :
    (runSpeedAutopilot s speed).aircraft = s.aircraft ∧
    (runSpeedAutopilot s speed).position = s.position ∧
    (runSpeedAutopilot s speed).velocity = s.velocity ∧
    (runSpeedAutopilot s speed).dt = s.dt ∧
    (runSpeedAutopilot s speed).autopilot_altitude = s.autopilot_altitude ∧
    (runSpeedAutopilot s speed).altitude_setpoint = s.altitude_setpoint ∧
    (runSpeedAutopilot s speed).alt_pid_kp = s.alt_pid_kp ∧
    (runSpeedAutopilot s speed).alt_pid_ki = s.alt_pid_ki ∧
    (runSpeedAutopilot s speed).alt_pid_kd = s.alt_pid_kd ∧
    (runSpeedAutopilot s speed).prev_alt_pid_kp = s.prev_alt_pid_kp ∧
    (runSpeedAutopilot s speed).prev_alt_pid_ki = s.prev_alt_pid_ki ∧
    (runSpeedAutopilot s speed).prev_alt_pid_kd = s.prev_alt_pid_kd ∧
    (runSpeedAutopilot s speed).altitude_pid = s.altitude_pid := by
  by_cases h : s.autopilot_speed
  · by_cases h2 : speedGainsChanged s <;> simp [runSpeedAutopilot, h, h2]
  · simp [runSpeedAutopilot, h]

theorem runAltitudeAutopilot_keeps (s : SimulationState) (altitude : ℝ) :
    (runAltitudeAutopilot s altitude).speed_pid = s.speed_pid ∧
    (runAltitudeAutopilot s altitude).throttle = s.throttle ∧
    (runAltitudeAutopilot s altitude).aircraft = s.aircraft ∧
    (runAltitudeAutopilot s altitude).velocity = s.velocity := by
  by_cases h : s.autopilot_altitude
  · by_cases h2 : altGainsChanged s <;> simp [runAltitudeAutopilot, h, h2]
  · simp [runAltitudeAutopilot, h]

theorem speedAuto_changed_result (s : SimulationState) (speed : ℝ)
    (h1 : s.autopilot_speed = true) (h2 : speedGainsChanged s) :
    (runSpeedAutopilot s speed).speed_pid =
      ((PIDController.make s.pid_kp s.pid_ki s.pid_kd 0 1).update
        s.speed_setpoint speed s.dt).2 ∧
    (runSpeedAutopilot s speed).throttle =
      ((PIDController.make s.pid_kp s.pid_ki s.pid_kd 0 1).update
        s.speed_setpoint speed s.dt).1 := by
  simp [runSpeedAutopilot, h1, h2]

theorem altAuto_changed_result (s : SimulationState) (altitude : ℝ)
    (h1 : s.autopilot_altitude = true) (h2 : altGainsChanged s) :
    (runAltitudeAutopilot s altitude).altitude_pid =
      ((PIDController.make s.alt_pid_kp s.alt_pid_ki s.alt_pid_kd (-10) 15).update
        s.altitude_setpoint altitude s.dt).2 ∧
    (runAltitudeAutopilot s altitude).alpha_deg =
      ((PIDController.make s.alt_pid_kp s.alt_pid_ki s.alt_pid_kd (-10) 15).update
        s.altitude_setpoint altitude s.dt).1 := by
  simp [runAltitudeAutopilot, h1, h2]

theorem updatePhysics_ctrl (s : SimulationState) (h : s.paused = false) :
    (updatePhysics s).speed_pid =
      (runSpeedAutopilot s s.velocity.magnitude).speed_pid ∧
    (updatePhysics s).throttle =
      (runSpeedAutopilot s s.velocity.magnitude).throttle ∧
    (updatePhysics s).altitude_pid =
      (runAltitudeAutopilot (runSpeedAutopilot s s.velocity.magnitude)
        s.position.y).altitude_pid ∧
    (updatePhysics s).alpha_deg =
      (runAltitudeAutopilot (runSpeedAutopilot s s.velocity.magnitude)
        s.position.y).alpha_deg := by
  obtain ⟨hk1, hk2, -, -⟩ :=
    runAltitudeAutopilot_keeps (runSpeedAutopilot s s.velocity.magnitude) s.position.y
  simp [updatePhysics, h, hk1, hk2]

/-- C9: in a tick with an autopilot enabled whose PID gains differ from the
previous tick's, the stepper replaces that controller with a freshly
constructed instance — zero integral, zero previous error, first-update
state — with output limits `(0, 1)` for the speed controller and
`(−10, 15)` for the altitude controller, and this tick's control output and
stored controller come from updating that fresh instance. -/
theorem pid_gain_change_reconstruction (s : SimulationState)
    (hpause : s.paused = false) :
    (s.autopilot_speed = true → speedGainsChanged s →
      (updatePhysics s).throttle =
        ((PIDController.make s.pid_kp s.pid_ki s.pid_kd 0 1).update
          s.speed_setpoint s.velocity.magnitude s.dt).1 ∧
      (updatePhysics s).speed_pid =
        ((PIDController.make s.pid_kp s.pid_ki s.pid_kd 0 1).update
          s.speed_setpoint s.velocity.magnitude s.dt).2 ∧
      (PIDController.make s.pid_kp s.pid_ki s.pid_kd 0 1).integral = 0 ∧
      (PIDController.make s.pid_kp s.pid_ki s.pid_kd 0 1).previous_error = 0 ∧
      (PIDController.make s.pid_kp s.pid_ki s.pid_kd 0 1).first_update = true ∧
      (PIDController.make s.pid_kp s.pid_ki s.pid_kd 0 1).output_min = 0 ∧
      (PIDController.make s.pid_kp s.pid_ki s.pid_kd 0 1).output_max = 1) ∧
    (s.autopilot_altitude = true → altGainsChanged s →
      (updatePhysics s).alpha_deg =
        ((PIDController.make s.alt_pid_kp s.alt_pid_ki s.alt_pid_kd (-10) 15).update
          s.altitude_setpoint s.position.y s.dt).1 ∧
      (updatePhysics s).altitude_pid =
        ((PIDController.make s.alt_pid_kp s.alt_pid_ki s.alt_pid_kd (-10) 15).update
          s.altitude_setpoint s.position.y s.dt).2 ∧
      (PIDController.make s.alt_pid_kp s.alt_pid_ki s.alt_pid_kd (-10) 15).integral = 0 ∧
      (PIDController.make s.alt_pid_kp s.alt_pid_ki s.alt_pid_kd (-10) 15).previous_error = 0 ∧
      (PIDController.make s.alt_pid_kp s.alt_pid_ki s.alt_pid_kd (-10) 15).first_update = true ∧
      (PIDController.make s.alt_pid_kp s.alt_pid_ki s.alt_pid_kd (-10) 15).output_min = -10 ∧
      (PIDController.make s.alt_pid_kp s.alt_pid_ki s.alt_pid_kd (-10) 15).output_max = 15) := by
  obtain ⟨hsp, hth, hap, had⟩ := updatePhysics_ctrl s hpause
  constructor
  · intro h1 h2
    obtain ⟨hc2, hc1⟩ := speedAuto_changed_result s s.velocity.magnitude h1 h2
    exact ⟨hth.trans hc1, hsp.trans hc2, rfl, rfl, rfl, rfl, rfl⟩
  · intro h1 h2
    obtain ⟨ha, hpos, hvel, hdt, hapa, hsetp, hkp, hki, hkd, hpkp, hpki, hpkd, hapid⟩ :=
      runSpeedAutopilot_keeps s s.velocity.magnitude
    have h1' : (runSpeedAutopilot s s.velocity.magnitude).autopilot_altitude = true := by
      rw [hapa]; exact h1
    have h2' : altGainsChanged (runSpeedAutopilot s s.velocity.magnitude) := by
      unfold altGainsChanged
      rw [hkp, hki, hkd, hpkp, hpki, hpkd]
      exact h2
    obtain ⟨hc2, hc1⟩ :=
      altAuto_changed_result (runSpeedAutopilot s s.velocity.magnitude) s.position.y h1' h2'
    rw [hkp, hki, hkd, hsetp, hdt] at hc2 hc1
    exact ⟨had.trans hc1, hap.trans hc2, rfl, rfl, rfl, rfl, rfl⟩

/-- A concrete running state: speed autopilot on, its proportional gain
just changed from `0.02` to `1`. -/
noncomputable def sampleState : SimulationState :=
  { aircraft := ⟨120, 1.6, 5.7, 0.025, 0.04, 500, none, []⟩
    position := ⟨0, 100⟩
    velocity := ⟨30, 0⟩
    t := 0
    dt := 0.016
    throttle := 0.3
    alpha_deg := 2
    paused := false
    autopilot_speed := true
    speed_setpoint := 40
    pid_kp := 1
    pid_ki := 0.001
    pid_kd := 0.01
    speed_pid := PIDController.make 0.02 0.001 0.01 0 1
    prev_pid_kp := 0.02
    prev_pid_ki := 0.001
    prev_pid_kd := 0.01
    autopilot_altitude := false
    altitude_setpoint := 100
    alt_pid_kp := 0.1
    alt_pid_ki := 0.001
    alt_pid_kd := 0.5
    altitude_pid := PIDController.make 0.1 0.001 0.5 (-10) 15
    prev_alt_pid_kp := 0.1
    prev_alt_pid_ki := 0.001
    prev_alt_pid_kd := 0.5
    flightPath := []
    maxPathPoints := 1000
    F_thrust_viz := ⟨0, 0⟩
    F_drag_viz := ⟨0, 0⟩
    F_lift_viz := ⟨0, 0⟩
    F_weight_viz := ⟨0, 0⟩ }

/-- Witness for C9: on `sampleState` the tick's throttle comes from one
update of the freshly constructed speed controller. -/
theorem pid_gain_change_reconstruction_witness :
    (updatePhysics sampleState).throttle =
      ((PIDController.make sampleState.pid_kp sampleState.pid_ki sampleState.pid_kd 0 1).update
        sampleState.speed_setpoint sampleState.velocity.magnitude sampleState.dt).1 :=
  ((pid_gain_change_reconstruction sampleState rfl).1 rfl
    (by rw [show speedGainsChanged sampleState =
        (sampleState.pid_kp ≠ sampleState.prev_pid_kp ∨
         sampleState.pid_ki ≠ sampleState.prev_pid_ki ∨
         sampleState.pid_kd ≠ sampleState.prev_pid_kd) from rfl]
        exact Or.inl (by norm_num [sampleState]))).1

/-- C10: at speed at most `1e-6` the velocity direction used for force
composition defaults to `(1, 0)`, so the thrust vector is
`(cos α, sin α)` scaled by `throttle · maxThrust` (a stationary aircraft
with open throttle is pushed along `+x` rotated by the angle of attack),
while the drag force is the zero vector — also as recorded by the tick in
`F_drag_viz`. -/
theorem stationary_force_defaults (aircraft : Aircraft) (velocity : Vec2)
    (altitude throttle alpha_deg : ℝ) (hslow : velocity.magnitude ≤ 1e-6) :
    velocityDirOf velocity = ⟨1, 0⟩ ∧
    (tickForces aircraft velocity altitude throttle alpha_deg).1 =
      ⟨Real.cos (alpha_deg * Real.pi / 180) * (throttle * aircraft.maxThrust),
       Real.sin (alpha_deg * Real.pi / 180) * (throttle * aircraft.maxThrust)⟩ ∧
    (tickForces aircraft velocity altitude throttle alpha_deg).2.1 = ⟨0, 0⟩ ∧
    (∀ s : SimulationState, s.paused = false → s.velocity = velocity →
      (updatePhysics s).F_drag_viz = ⟨0, 0⟩) := by
  have hnot : ¬ velocity.magnitude > 1e-6 := not_lt.mpr hslow
  have hdir : velocityDirOf velocity = ⟨1, 0⟩ := by
    simp [velocityDirOf, hnot]
  have hdrag : ∀ (ac : Aircraft) (alt thr ad : ℝ),
      (tickForces ac velocity alt thr ad).2.1 = ⟨0, 0⟩ := by
    intro ac alt thr ad
    simp [tickForces, hnot]
  refine ⟨hdir, ?_, hdrag aircraft altitude throttle alpha_deg, ?_⟩
  · simp only [tickForces, hdir, Vec2.rotated, Vec2.mul_def, calcThrust]
    norm_num
  · intro s hp hv
    obtain ⟨-, -, hvel1, -⟩ := runSpeedAutopilot_keeps s s.velocity.magnitude
    obtain ⟨-, -, -, hvel2⟩ :=
      runAltitudeAutopilot_keeps (runSpeedAutopilot s s.velocity.magnitude) s.position.y
    simp only [updatePhysics, hp, Bool.false_eq_true, if_false]
    rw [hvel2, hvel1, hv]
    exact hdrag _ _ _ _

/-- Witness for C10: a stationary aircraft gets the default direction. -/
theorem stationary_force_defaults_witness :
    velocityDirOf ⟨0, 0⟩ = ⟨1, 0⟩ :=
  (stationary_force_defaults ⟨120, 1.6, 5.7, 0.025, 0.04, 500, none, []⟩ ⟨0, 0⟩
    0 0.5 0 (by simp [Vec2.magnitude]; norm_num)).1
